import Mathlib

/-!
Shallow embedding of `src/server/frontend_xwayland/xwayland_surface.cpp`
(the XWayland surface bridge of the Mir compositor) and proofs about it.

The bridge keeps the ICCCM/EWMH state of an X11 window in sync with the
scene-surface model of the compositor.  We embed the operations as pure
state-transition functions `Bridge → ... → Bridge × List Effect`, where
`Effect` records every outgoing call to the XCB connection or the shell,
in program order.
-/

set_option maxHeartbeats 1000000

namespace XWayland

/-- The four-bit window state record (header field `window_state`). -/
structure WindowState where
  withdrawn : Bool
  minimized : Bool
  maximized : Bool
  fullscreen : Bool
deriving DecidableEq, Repr

/-- The all-false state a fresh window starts in. -/
def WindowState.initial : WindowState :=
  { withdrawn := false, minimized := false, maximized := false, fullscreen := false }

/-- ICCCM `WM_STATE` codes (xwayland_surface.cpp:40-45). -/
inductive WmState
  | withdrawn
  | normal
  | iconic
deriving DecidableEq, Repr

/-- The compositor window-state attribute (`MirWindowState`, minus the
count sentinel `mir_window_states`, which has no behaviour). -/
inductive MirWindowState
  | unknown
  | restored
  | minimized
  | maximized
  | vertmaximized
  | horizmaximized
  | fullscreen
  | hidden
  | attached
deriving DecidableEq, Repr

/-- X11 atoms the bridge compares against.  Atoms are opaque identifiers
resolved once per connection; we model the pre-resolved ones as
constructors and every other atom by its numeric id. -/
inductive Atom
  | none
  | netWmStateHidden
  | netWmStateMaximizedHorz
  | netWmStateMaximizedVert
  | netWmStateFullscreen
  | wmDeleteWindow
  | netWmDesktop
  | other (id : Nat)
deriving DecidableEq, Repr

/-- Cached window properties (header struct; fields `title`, `appId`,
`deleteWindow`). -/
structure Properties where
  title : String
  appId : String
  deleteWindow : Bool
deriving DecidableEq, Repr

/-- Window types; the bridge only ever sets `freestyle`
(xwayland_surface.cpp:509). -/
inductive MirWindowType
  | freestyle
deriving DecidableEq, Repr

/-- Creation parameters (`scene::SurfaceCreationParameters`), restricted to the fields this file
touches (xwayland_surface.cpp:259-265 and 506-515).  Stream descriptors and
input-shape rectangles are opaque to the bridge, so they are modelled by
identifiers. -/
structure SurfaceCreationParameters where
  streams : List Nat
  inputShape : List Nat
  type : Option MirWindowType
  name : Option String
  applicationId : Option String
  size : Option (Nat × Nat)
  serverSideDecorated : Option Bool
deriving DecidableEq, Repr

/-- What `set_window_state` does to the `_NET_WM_STATE` property: either
delete it (withdrawn) or set it to an ordered atom list
(xwayland_surface.cpp:543-569). -/
inductive NetWmStateWire
  | deleteProp
  | setAtoms (atoms : List Atom)
deriving DecidableEq, Repr

/-- The atoms a `NetWmStateWire` action leaves advertised on the window:
deleting the property advertises none. -/
def NetWmStateWire.atoms : NetWmStateWire → List Atom
  | NetWmStateWire.deleteProp => []
  | NetWmStateWire.setAtoms l => l

/-- Every outgoing call the embedded operations make to the XCB connection
or the shell, in program order. -/
inductive Effect
  | setWmStateProp (state : WmState)
  | netWmState (wire : NetWmStateWire)
  | modifySurface (state : MirWindowState)
  | createSurface (params : SurfaceCreationParameters)
  | destroySurface
  | removeObserver
  | fatalError
  | setCardinalProp (atom : Atom) (value : Nat)
  | deleteProperty (atom : Atom)
  | flush
deriving DecidableEq, Repr

/-- The bridge state guarded by the mutex (header members of
`XWaylandSurface`).  Weak pointers are modelled by whether `lock()`
succeeds; `observerHeldElsewhere` models whether some holder other than
the bridge and the observer registry of the scene surface still keeps the
observer alive (the `use_count` check in `close`,
xwayland_surface.cpp:140-151). -/
structure Bridge where
  windowState : WindowState
  cachedMirWindowState : MirWindowState
  propsDirty : Bool
  properties : Properties
  hasSceneSurface : Bool
  hasObserver : Bool
  observerHeldElsewhere : Bool
  hasSession : Bool
  creationParams : Option SurfaceCreationParameters
  initSize : Nat × Nat
deriving DecidableEq, Repr

/-- The `wm_state` code computed by `set_window_state`
(xwayland_surface.cpp:528-535). -/
def wmStateOf (s : WindowState) : WmState :=
  if s.withdrawn then WmState.withdrawn
  else if s.minimized then WmState.iconic
  else WmState.normal

/-- The `_NET_WM_STATE` atom list built by `set_window_state`
(xwayland_surface.cpp:552-566): `hidden` if minimized, then
`maximized_horz` and `maximized_vert` if maximized, then `fullscreen`
if fullscreen, in that fixed push order. -/
def netWmStateAtomList (s : WindowState) : List Atom :=
  (if s.minimized then [Atom.netWmStateHidden] else []) ++
  (if s.maximized then [Atom.netWmStateMaximizedHorz, Atom.netWmStateMaximizedVert] else []) ++
  (if s.fullscreen then [Atom.netWmStateFullscreen] else [])

/-- The `_NET_WM_STATE` wire action of `set_window_state`
(xwayland_surface.cpp:543-570): delete the property when withdrawn, else
set it to `netWmStateAtomList`. -/
def netWmStateWire (s : WindowState) : NetWmStateWire :=
  if s.withdrawn then NetWmStateWire.deleteProp
  else NetWmStateWire.setAtoms (netWmStateAtomList s)

/-- Mirrors the computation of `mir_window_state` in `set_window_state`
(xwayland_surface.cpp:572-583).  The source first assigns
`mir_window_state_hidden` when `withdrawn`, but the following chain is a
plain `if (minimized) ... else if (fullscreen) ... else if (maximized)
... else restored` — it is not chained to the withdrawn check and its
final `else` always assigns, so the `hidden` assignment is dead and the
result never depends on `withdrawn`. -/
def computedMirWindowState (s : WindowState) : MirWindowState :=
  if s.minimized then MirWindowState.minimized
  else if s.fullscreen then MirWindowState.fullscreen
  else if s.maximized then MirWindowState.maximized
  else MirWindowState.restored

/-- Embeds `XWaylandSurface::set_window_state` (xwayland_surface.cpp:526-608):
write `wm_state` and `_NET_WM_STATE` to the X11 connection, store the new
`window_state`, and — only when the computed compositor attribute differs
from `cached_mir_window_state` — update the cache and, if a scene surface
is held, issue `modify_surface` to the shell. -/
def set_window_state (b : Bridge) (s : WindowState) : Bridge × List Effect :=
  let wireEffects := [Effect.setWmStateProp (wmStateOf s), Effect.netWmState (netWmStateWire s)]
  let mir := computedMirWindowState s
  if mir = b.cachedMirWindowState then
    ({ b with windowState := s }, wireEffects)
  else
    ({ b with windowState := s, cachedMirWindowState := mir },
      wireEffects ++ (if b.hasSceneSurface then [Effect.modifySurface mir] else []))

/-- Embeds `XWaylandSurface::close` (xwayland_surface.cpp:110-152): under the
lock, take the scene-surface and observer references out of the bridge;
then, outside the lock, remove the observer from the scene surface (when
both were held), ask the shell to destroy the surface (when held), and
fatal-log if some other holder still keeps the observer alive. -/
def close (b : Bridge) : Bridge × List Effect :=
  let sceneSurface := b.hasSceneSurface
  let observer := b.hasObserver
  ({ b with hasSceneSurface := false, hasObserver := false },
    (if sceneSurface && observer then [Effect.removeObserver] else []) ++
      (if sceneSurface then [Effect.destroySurface] else []) ++
      (if observer && b.observerHeldElsewhere then [Effect.fatalError] else []))

/-- Embeds `XWaylandSurface::scene_surface_state_set` (xwayland_surface.cpp:390-440):
no-op when the new attribute equals `cached_mir_window_state`; otherwise
cache it, fold it into `window_state`, and run `set_window_state`. -/
def scene_surface_state_set (b : Bridge) (new_state : MirWindowState) : Bridge × List Effect :=
  if new_state = b.cachedMirWindowState then (b, [])
  else
    let w := b.windowState
    let w1 :=
      match new_state with
      | MirWindowState.minimized | MirWindowState.hidden =>
          { w with minimized := true }
      | MirWindowState.fullscreen =>
          { w with minimized := false, fullscreen := true }
      | MirWindowState.maximized | MirWindowState.vertmaximized | MirWindowState.horizmaximized =>
          { w with minimized := false, maximized := true, fullscreen := false }
      | MirWindowState.restored | MirWindowState.unknown | MirWindowState.attached =>
          { w with minimized := false, maximized := false, fullscreen := false }
    set_window_state { b with cachedMirWindowState := new_state } w1

/-- Actions of a `_NET_WM_STATE` client message (xwayland_surface.cpp:159-164). -/
inductive NetWmStateAction
  | remove
  | add
  | toggle
deriving DecidableEq, Repr

/-- A decoded `_NET_WM_STATE` client message: action, two target atoms
(the second is `Atom.none` when only one property is given) and the
ignored source indication (xwayland_surface.cpp:166-171). -/
structure NetWmStateMsg where
  action : NetWmStateAction
  prop1 : Atom
  prop2 : Atom
  sourceIndication : Nat
deriving DecidableEq, Repr

/-- The action switch of `net_wm_state_client_message`
(xwayland_surface.cpp:193-198). -/
def applyWmStateAction : NetWmStateAction → Bool → Bool
  | NetWmStateAction.remove, _ => false
  | NetWmStateAction.add, _ => true
  | NetWmStateAction.toggle, v => !v

/-- One target atom of a `_NET_WM_STATE` message applied to a state
(xwayland_surface.cpp:180-199): atom 0 is skipped; the hidden, maximized
and fullscreen atoms select a flag; any other atom makes the action write
to the dummy `nil` variable, leaving the state unchanged. -/
def applyNetWmStateProperty (a : NetWmStateAction) (w : WindowState) (p : Atom) : WindowState :=
  if p = Atom.none then w
  else if p = Atom.netWmStateHidden then
    { w with minimized := applyWmStateAction a w.minimized }
  else if p = Atom.netWmStateMaximizedHorz then
    { w with maximized := applyWmStateAction a w.maximized }
  else if p = Atom.netWmStateFullscreen then
    { w with fullscreen := applyWmStateAction a w.fullscreen }
  else w

/-- The pure per-message state transformation of
`net_wm_state_client_message`: both target atoms applied in order. -/
def applyNetWmStateMessage (w : WindowState) (m : NetWmStateMsg) : WindowState :=
  applyNetWmStateProperty m.action (applyNetWmStateProperty m.action w m.prop1) m.prop2

/-- Embeds `XWaylandSurface::net_wm_state_client_message`
(xwayland_surface.cpp:154-204): compute the new state from the current
one under the lock, then propagate via `set_window_state`. -/
def net_wm_state_client_message (b : Bridge) (m : NetWmStateMsg) : Bridge × List Effect :=
  set_window_state b (applyNetWmStateMessage b.windowState m)

/-- Sequential processing of a list of `_NET_WM_STATE` client messages by
the bridge. -/
def processNetWmStateMessages : Bridge → List NetWmStateMsg → Bridge
  | b, [] => b
  | b, m :: rest => processNetWmStateMessages (net_wm_state_client_message b m).1 rest

/-- The windowing (Wayland) surface as the bridge sees it at attach time:
whether its owning session resolves, whether a buffer is already
committed, and the content data `populate_surface_data` copies out. -/
structure WlSurfaceModel where
  sessionResolvable : Bool
  hasCommittedBuffer : Bool
  streams : List Nat
  inputShape : List Nat
deriving DecidableEq, Repr

/-- The failure modes of `set_surface`. -/
inductive AttachError
  | calledMultipleTimes
  | sessionUnresolvable
deriving DecidableEq, Repr

/-- Modelled from the spec: the body of `get_session`
(`mir/frontend/wayland.h`) is not under `src/`; per the spec a windowing
surface whose owning session cannot be resolved at attach time is a fatal
resolution failure, so resolution failure raises here. -/
def get_session (ws : WlSurfaceModel) : Except AttachError Unit :=
  if ws.sessionResolvable then Except.ok () else Except.error AttachError.sessionUnresolvable

/-- Embeds `XWaylandSurface::create_scene_surface_if_needed`
(xwayland_surface.cpp:484-524): return early when a scene surface already
exists, creation params are gone, no observer is registered or the session
is dead; otherwise consume the params, apply the deferred overrides
(freestyle type, title and app id when non-empty, initial size,
server-side decoration) and call the `create_surface` operation of the shell, recording
the returned surface. -/
def create_scene_surface_if_needed (b : Bridge) : Bridge × List Effect :=
  match b.creationParams with
  | none => (b, [])
  | some p =>
    if b.hasSceneSurface || !b.hasObserver || !b.hasSession then (b, [])
    else
      ({ b with creationParams := none, hasSceneSurface := true },
        [Effect.createSurface
          { p with
            type := some MirWindowType.freestyle,
            name := if b.properties.title = "" then p.name else some b.properties.title,
            applicationId := if b.properties.appId = "" then p.applicationId else some b.properties.appId,
            size := some b.initSize,
            serverSideDecorated := some true }])

/-- Embeds `XWaylandSurface::set_surface` (xwayland_surface.cpp:243-271): throws
when an observer or session is already recorded (double attach);
otherwise registers a fresh observer, resolves the session, captures the
creation parameters from the windowing surface, and — when a buffer is
already committed — immediately attempts scene-surface creation. -/
def set_surface (b : Bridge) (ws : WlSurfaceModel) : Bridge × List Effect × Option AttachError :=
  if b.hasObserver || b.hasSession then
    (b, [], some AttachError.calledMultipleTimes)
  else
    match get_session ws with
    | Except.error e => ({ b with hasObserver := true }, [], some e)
    | Except.ok _ =>
      let b1 :=
        { b with
          hasObserver := true,
          hasSession := true,
          creationParams := some
            { streams := ws.streams, inputShape := ws.inputShape,
              type := none, name := none, applicationId := none,
              size := none, serverSideDecorated := none } }
      if ws.hasCommittedBuffer then
        let r := create_scene_surface_if_needed b1
        (r.1, r.2, none)
      else
        (b1, [], none)

/-- The bridge state right after a successful attach: observer registered,
session resolved, creation parameters captured from the windowing surface
(xwayland_surface.cpp:255-265). -/
def attachedBridge (b : Bridge) (ws : WlSurfaceModel) : Bridge :=
  { b with
    hasObserver := true,
    hasSession := true,
    creationParams := some
      { streams := ws.streams, inputShape := ws.inputShape,
        type := none, name := none, applicationId := none,
        size := none, serverSideDecorated := none } }

/-- Embeds `XWaylandSurface::wl_surface_committed` (xwayland_surface.cpp:470-473). -/
def wl_surface_committed (b : Bridge) : Bridge × List Effect :=
  create_scene_surface_if_needed b

/-- Runs `n` consecutive commit notifications, accumulating effects. -/
def commitN : Bridge → Nat → Bridge × List Effect
  | b, 0 => (b, [])
  | b, n + 1 =>
    let r := wl_surface_committed b
    let rest := commitN r.1 n
    (rest.1, r.2 ++ rest.2)

/-- Number of `create_surface` shell calls in an effect trace. -/
def countCreateSurface (es : List Effect) : Nat :=
  (es.filter fun e =>
    match e with
    | Effect.createSurface _ => true
    | _ => false).length

/-- Number of `modify_surface` shell calls in an effect trace. -/
def countModifySurface (es : List Effect) : Nat :=
  (es.filter fun e =>
    match e with
    | Effect.modifySurface _ => true
    | _ => false).length

/-- The X11 properties currently present on the window, as the four reads
issued by `read_properties` would observe them (`none`: property absent,
in which case the reply handler is never invoked). -/
structure X11WindowProperties where
  wmClass : Option String
  wmName : Option String
  netWmName : Option String
  wmProtocols : Option (List Atom)
deriving DecidableEq, Repr

/-- The four property-read continuations issued by `read_properties`, in
issue order (xwayland_surface.cpp:311-346): 0 = `WM_CLASS` writes `appId`;
1 = `WM_NAME` writes `title`; 2 = `_NET_WM_NAME` writes `title`;
3 = `WM_PROTOCOLS` sets `deleteWindow` when `WM_DELETE_WINDOW` is listed. -/
def runReadContinuation (x : X11WindowProperties) (i : Nat) (p : Properties) : Properties :=
  match i with
  | 0 =>
    match x.wmClass with
    | some v => { p with appId := v }
    | none => p
  | 1 =>
    match x.wmName with
    | some v => { p with title := v }
    | none => p
  | 2 =>
    match x.netWmName with
    | some v => { p with title := v }
    | none => p
  | 3 =>
    match x.wmProtocols with
    | some v => if Atom.wmDeleteWindow ∈ v then { p with deleteWindow := true } else p
    | none => p
  | _ => p

/-- Whether the `WM_PROTOCOLS` reply would set `deleteWindow`. -/
def protocolsFlag (x : X11WindowProperties) : Bool :=
  match x.wmProtocols with
  | some l => decide (Atom.wmDeleteWindow ∈ l)
  | none => false

/-- Embeds `XWaylandSurface::read_properties` (xwayland_surface.cpp:301-357): a
no-op unless `props_dirty`; otherwise clear the dirty flag, reset
`deleteWindow` synchronously, and issue the four reads.  Modelled from
the spec: reply delivery lives in `XCBConnection::read_property`, which is
not under `src/`; per the spec the reads "may complete out of order and
independently", so the completion order of the issued continuations is a
parameter (a list of continuation indices). -/
def read_properties (b : Bridge) (x : X11WindowProperties) (order : List Nat) : Bridge :=
  if !b.propsDirty then b
  else
    { b with
      propsDirty := false,
      properties :=
        order.foldl (fun p i => runReadContinuation x i p)
          { b.properties with deleteWindow := false } }

/-- Embeds `XWaylandSurface::set_workspace` (xwayland_surface.cpp:273-288): a
non-negative workspace sets `_NET_WM_DESKTOP` to its 32-bit value, a
negative one deletes the property; both flush the connection and touch no
bridge state. -/
def set_workspace (b : Bridge) (workspace : Int) : Bridge × List Effect :=
  if workspace ≥ 0 then
    (b, [Effect.setCardinalProp Atom.netWmDesktop (workspace.toNat % 2 ^ 32), Effect.flush])
  else
    (b, [Effect.deleteProperty Atom.netWmDesktop, Effect.flush])

/-- A bridge that holds a live scene surface and observer, in its resting
state (used as a concrete input for witnesses and counterexamples). -/
def liveBridge : Bridge :=
  { windowState := WindowState.initial,
    cachedMirWindowState := MirWindowState.restored,
    propsDirty := false,
    properties := { title := "", appId := "", deleteWindow := false },
    hasSceneSurface := true,
    hasObserver := true,
    observerHeldElsewhere := false,
    hasSession := true,
    creationParams := none,
    initSize := (640, 480) }

/-- A freshly created bridge, before any windowing surface is attached. -/
def freshBridge : Bridge :=
  { windowState := WindowState.initial,
    cachedMirWindowState := MirWindowState.unknown,
    propsDirty := true,
    properties := { title := "", appId := "", deleteWindow := false },
    hasSceneSurface := false,
    hasObserver := false,
    observerHeldElsewhere := false,
    hasSession := false,
    creationParams := none,
    initSize := (640, 480) }

/-- A windowing surface with a resolvable session and no committed buffer. -/
def wsNoBuffer : WlSurfaceModel :=
  { sessionResolvable := true, hasCommittedBuffer := false, streams := [7], inputShape := [3] }

/-- A window carrying both `WM_NAME` and `_NET_WM_NAME` with different
values (a concrete input for the property-read claims). -/
def sampleX11Properties : X11WindowProperties :=
  { wmClass := some "app",
    wmName := some "a",
    netWmName := some "b",
    wmProtocols := some [Atom.wmDeleteWindow] }

end XWayland

namespace XWayland

/-- Claim C3: calling `close` twice has the same observable effects as
calling it once — the second call removes no observer, destroys no
surface, raises no fatal error, and leaves the bridge state untouched. -/
theorem close_idempotent (b : Bridge) :
    close (close b).1 = ((close b).1, ([] : List Effect)) := by
  simp [close]

/-- Claim C10: `set_workspace` changes no bridge-internal state; a
non-negative workspace sets `_NET_WM_DESKTOP` to its 32-bit value and
flushes, a negative one deletes the property and flushes. -/
theorem set_workspace_spec (b : Bridge) (w : Int) :
    (set_workspace b w).1 = b ∧
    (set_workspace b w).2 =
      (if w ≥ 0 then
        [Effect.setCardinalProp Atom.netWmDesktop (w.toNat % 2 ^ 32), Effect.flush]
      else
        [Effect.deleteProperty Atom.netWmDesktop, Effect.flush]) := by
  rw [set_workspace]
  split <;> simp_all [set_workspace]

/-- Claim C4: the claim says two consecutive
`scene_surface_state_set fullscreen` calls issue exactly one
`modify_surface`.  Counterexample: on a live bridge whose cached attribute
is `restored`, the two calls issue zero `modify_surface` invocations —
the first call caches `fullscreen` before `set_window_state` recomputes
the same attribute, so the push back to the shell is suppressed, and the
second call returns at the redundancy check. -/
theorem state_set_fullscreen_twice_cex :
    countModifySurface
      ((scene_surface_state_set liveBridge MirWindowState.fullscreen).2 ++
        (scene_surface_state_set (scene_surface_state_set liveBridge MirWindowState.fullscreen).1
          MirWindowState.fullscreen).2) ≠ 1 := by
  decide

/-- Claim C4 (amended): two consecutive `scene_surface_state_set` calls
with attribute `fullscreen` on a bridge holding a live scene surface
issue zero `modify_surface` invocations (the recomputed attribute always
equals the freshly cached one), and the second call is a pure no-op. -/
theorem state_set_fullscreen_twice_no_modify (b : Bridge) (h : b.hasSceneSurface = true) :
    countModifySurface
      ((scene_surface_state_set b MirWindowState.fullscreen).2 ++
        (scene_surface_state_set (scene_surface_state_set b MirWindowState.fullscreen).1
          MirWindowState.fullscreen).2) = 0 ∧
    scene_surface_state_set (scene_surface_state_set b MirWindowState.fullscreen).1
        MirWindowState.fullscreen =
      ((scene_surface_state_set b MirWindowState.fullscreen).1, []) := by
  by_cases hc : MirWindowState.fullscreen = b.cachedMirWindowState
  · simp [scene_surface_state_set, ← hc, countModifySurface]
  · simp [scene_surface_state_set, hc, set_window_state, computedMirWindowState,
      countModifySurface]

/-- Witness for the amended C4 theorem at a concrete live bridge. -/
theorem state_set_fullscreen_twice_no_modify_witness :
    liveBridge.hasSceneSurface = true ∧
      (countModifySurface
        ((scene_surface_state_set liveBridge MirWindowState.fullscreen).2 ++
          (scene_surface_state_set (scene_surface_state_set liveBridge MirWindowState.fullscreen).1
            MirWindowState.fullscreen).2) = 0 ∧
      scene_surface_state_set (scene_surface_state_set liveBridge MirWindowState.fullscreen).1
          MirWindowState.fullscreen =
        ((scene_surface_state_set liveBridge MirWindowState.fullscreen).1, [])) :=
  ⟨rfl, state_set_fullscreen_twice_no_modify liveBridge rfl⟩

/-- Handling one `_NET_WM_STATE` message updates `window_state` exactly by
the pure per-message transformation. -/
theorem net_wm_state_client_message_windowState (b : Bridge) (m : NetWmStateMsg) :
    (net_wm_state_client_message b m).1.windowState = applyNetWmStateMessage b.windowState m := by
  rw [net_wm_state_client_message, set_window_state]
  split <;> simp

/-- Processing a message list folds the per-message transformation over
the current state of the bridge. -/
theorem processNetWmStateMessages_windowState (msgs : List NetWmStateMsg) :
    ∀ b : Bridge,
      (processNetWmStateMessages b msgs).windowState =
        msgs.foldl applyNetWmStateMessage b.windowState := by
  induction msgs with
  | nil => intro b; rfl
  | cons m rest ih =>
    intro b
    rw [processNetWmStateMessages, ih, net_wm_state_client_message_windowState, List.foldl_cons]

/-- Claim C7: for every sequence of `_NET_WM_STATE` client messages, the
resulting `WindowState` is the pure functional fold of the per-message
transformation over the sequence starting from the all-false state, and
unrecognized target atoms leave the state unchanged (no error). -/
theorem net_wm_state_fold (b : Bridge) (msgs : List NetWmStateMsg)
    (h : b.windowState = WindowState.initial) :
    (processNetWmStateMessages b msgs).windowState =
      msgs.foldl applyNetWmStateMessage WindowState.initial ∧
    ∀ (a : NetWmStateAction) (w : WindowState) (i : Nat),
      applyNetWmStateProperty a w (Atom.other i) = w := by
  constructor
  · rw [processNetWmStateMessages_windowState, h]
  · intro a w i
    rfl

/-- Witness for C7: a fresh bridge processing an Add-fullscreen message,
a Toggle over the hidden and maximized atoms, and a message carrying an
unrecognized atom. -/
theorem net_wm_state_fold_witness :
    freshBridge.windowState = WindowState.initial ∧
      ((processNetWmStateMessages freshBridge
          [{ action := NetWmStateAction.add, prop1 := Atom.netWmStateFullscreen,
             prop2 := Atom.none, sourceIndication := 1 },
           { action := NetWmStateAction.toggle, prop1 := Atom.netWmStateHidden,
             prop2 := Atom.netWmStateMaximizedHorz, sourceIndication := 0 },
           { action := NetWmStateAction.add, prop1 := Atom.other 99,
             prop2 := Atom.none, sourceIndication := 2 }]).windowState =
        [{ action := NetWmStateAction.add, prop1 := Atom.netWmStateFullscreen,
           prop2 := Atom.none, sourceIndication := 1 },
         { action := NetWmStateAction.toggle, prop1 := Atom.netWmStateHidden,
           prop2 := Atom.netWmStateMaximizedHorz, sourceIndication := 0 },
         { action := NetWmStateAction.add, prop1 := Atom.other 99,
           prop2 := Atom.none, sourceIndication := 2 }].foldl
          applyNetWmStateMessage WindowState.initial ∧
      ∀ (a : NetWmStateAction) (w : WindowState) (i : Nat),
        applyNetWmStateProperty a w (Atom.other i) = w) :=
  ⟨rfl, net_wm_state_fold freshBridge _ rfl⟩

/-- Once a scene surface exists, a commit notification is a complete
no-op. -/
theorem wl_surface_committed_noop_of_created (b : Bridge) (h : b.hasSceneSurface = true) :
    wl_surface_committed b = (b, []) := by
  rw [wl_surface_committed, create_scene_surface_if_needed]
  cases hp : b.creationParams <;> simp [h]

/-- Once a scene surface exists, any number of commit notifications is a
complete no-op. -/
theorem commitN_noop_of_created (b : Bridge) (n : Nat) (h : b.hasSceneSurface = true) :
    commitN b n = (b, []) := by
  induction n with
  | zero => rfl
  | succ m ih => rw [commitN, wl_surface_committed_noop_of_created b h]; simpa using ih

/-- When all preconditions hold, creation fires exactly once: one
`create_surface` call and the scene-surface reference is recorded. -/
theorem create_fires (b : Bridge) (p : SurfaceCreationParameters)
    (hp : b.creationParams = some p) (hScene : b.hasSceneSurface = false)
    (hObs : b.hasObserver = true) (hSess : b.hasSession = true) :
    (create_scene_surface_if_needed b).1.hasSceneSurface = true ∧
    countCreateSurface (create_scene_surface_if_needed b).2 = 1 := by
  rw [create_scene_surface_if_needed, hp]
  simp [hScene, hObs, hSess, countCreateSurface]

/-- Creation never touches the observer registration. -/
theorem create_preserves_hasObserver (b : Bridge) :
    (create_scene_surface_if_needed b).1.hasObserver = b.hasObserver := by
  cases hp : b.creationParams with
  | none => rw [create_scene_surface_if_needed, hp]
  | some p =>
    simp only [create_scene_surface_if_needed, hp]
    split <;> rfl

/-- Unfolding one commit step. -/
theorem commitN_succ (b : Bridge) (m : Nat) :
    commitN b (m + 1) =
      ((commitN (wl_surface_committed b).1 m).1,
        (wl_surface_committed b).2 ++ (commitN (wl_surface_committed b).1 m).2) :=
  rfl

/-- A successful attach with no committed buffer just captures state. -/
theorem set_surface_ok_nobuf (b : Bridge) (ws : WlSurfaceModel)
    (hObs : b.hasObserver = false) (hSess : b.hasSession = false)
    (hRes : ws.sessionResolvable = true) (hbuf : ws.hasCommittedBuffer = false) :
    set_surface b ws = (attachedBridge b ws, [], none) := by
  rw [set_surface, get_session]
  simp [hObs, hSess, hRes, hbuf, attachedBridge]

/-- A successful attach with a committed buffer captures state and then
immediately attempts creation. -/
theorem set_surface_ok_buf (b : Bridge) (ws : WlSurfaceModel)
    (hObs : b.hasObserver = false) (hSess : b.hasSession = false)
    (hRes : ws.sessionResolvable = true) (hbuf : ws.hasCommittedBuffer = true) :
    set_surface b ws =
      ((create_scene_surface_if_needed (attachedBridge b ws)).1,
        (create_scene_surface_if_needed (attachedBridge b ws)).2, none) := by
  rw [set_surface, get_session]
  simp [hObs, hSess, hRes, hbuf, attachedBridge]

/-- Claim C2: after attaching a windowing surface with no committed
buffer, the `create_surface` operation of the shell is never called until a commit
arrives; the first commit calls it exactly once, and any further commits
call it zero more times.  If the surface already carried committed
content at attach, `create_surface` fires once during the attach and
every later commit is creation-free. -/
theorem deferred_creation_single (b : Bridge) (ws : WlSurfaceModel) (n : Nat)
    (hObs : b.hasObserver = false) (hSess : b.hasSession = false)
    (hScene : b.hasSceneSurface = false) (hRes : ws.sessionResolvable = true) :
    (set_surface b ws).2.2 = none ∧
    (ws.hasCommittedBuffer = false →
      countCreateSurface (set_surface b ws).2.1 = 0 ∧
      countCreateSurface (commitN (set_surface b ws).1 n).2 = if n = 0 then 0 else 1) ∧
    (ws.hasCommittedBuffer = true →
      countCreateSurface (set_surface b ws).2.1 = 1 ∧
      countCreateSurface (commitN (set_surface b ws).1 n).2 = 0) := by
  have hScene2 : (attachedBridge b ws).hasSceneSurface = false := hScene
  have hcreate := create_fires (attachedBridge b ws) _ rfl hScene2 rfl rfl
  cases hbuf : ws.hasCommittedBuffer with
  | false =>
    have hok := set_surface_ok_nobuf b ws hObs hSess hRes hbuf
    have h1 : (set_surface b ws).1 = attachedBridge b ws := by rw [hok]
    have h2 : (set_surface b ws).2.1 = [] := by rw [hok]
    have h3 : (set_surface b ws).2.2 = none := by rw [hok]
    refine ⟨h3, fun _ => ⟨by rw [h2]; rfl, ?_⟩, fun hc => Bool.noConfusion hc⟩
    rw [h1]
    cases n with
    | zero => rfl
    | succ m =>
      rw [commitN_succ]
      have hwl : wl_surface_committed (attachedBridge b ws) =
          create_scene_surface_if_needed (attachedBridge b ws) := rfl
      rw [hwl, commitN_noop_of_created _ m hcreate.1]
      simpa [countCreateSurface] using hcreate.2
  | true =>
    have hok := set_surface_ok_buf b ws hObs hSess hRes hbuf
    have h1 : (set_surface b ws).1 =
        (create_scene_surface_if_needed (attachedBridge b ws)).1 := by rw [hok]
    have h2 : (set_surface b ws).2.1 =
        (create_scene_surface_if_needed (attachedBridge b ws)).2 := by rw [hok]
    have h3 : (set_surface b ws).2.2 = none := by rw [hok]
    refine ⟨h3, fun hc => Bool.noConfusion hc, fun _ => ⟨?_, ?_⟩⟩
    · rw [h2]
      exact hcreate.2
    · rw [h1, commitN_noop_of_created _ n hcreate.1]
      rfl

/-- Witness for C2: a fresh bridge, a surface with a resolvable session
and no committed buffer, two commits. -/
theorem deferred_creation_single_witness :
    (freshBridge.hasObserver = false ∧ freshBridge.hasSession = false ∧
      freshBridge.hasSceneSurface = false ∧ wsNoBuffer.sessionResolvable = true) ∧
    ((set_surface freshBridge wsNoBuffer).2.2 = none ∧
    (wsNoBuffer.hasCommittedBuffer = false →
      countCreateSurface (set_surface freshBridge wsNoBuffer).2.1 = 0 ∧
      countCreateSurface (commitN (set_surface freshBridge wsNoBuffer).1 2).2 =
        if (2 : Nat) = 0 then 0 else 1) ∧
    (wsNoBuffer.hasCommittedBuffer = true →
      countCreateSurface (set_surface freshBridge wsNoBuffer).2.1 = 1 ∧
      countCreateSurface (commitN (set_surface freshBridge wsNoBuffer).1 2).2 = 0)) :=
  ⟨⟨rfl, rfl, rfl, rfl⟩, deferred_creation_single freshBridge wsNoBuffer 2 rfl rfl rfl rfl⟩

/-- Claim C8: `set_surface` fails on the second attach for the same bridge —
leaving the bridge unchanged and issuing no effect — and fails when no
session can be resolved from the windowing surface; one bridge has one
windowing surface for its lifetime. -/
theorem set_surface_fatal_paths (b : Bridge) (ws ws2 : WlSurfaceModel)
    (hObs : b.hasObserver = false) (hSess : b.hasSession = false) :
    (ws.sessionResolvable = true →
      (set_surface b ws).2.2 = none ∧
      (set_surface b ws).1.hasObserver = true ∧
      set_surface (set_surface b ws).1 ws2 =
        ((set_surface b ws).1, [], some AttachError.calledMultipleTimes)) ∧
    (ws.sessionResolvable = false →
      (set_surface b ws).2.2 = some AttachError.sessionUnresolvable) := by
  constructor
  · intro hRes
    have hobs : (set_surface b ws).1.hasObserver = true ∧ (set_surface b ws).2.2 = none := by
      cases hbuf : ws.hasCommittedBuffer with
      | false =>
        rw [set_surface_ok_nobuf b ws hObs hSess hRes hbuf]
        exact ⟨rfl, rfl⟩
      | true =>
        rw [set_surface_ok_buf b ws hObs hSess hRes hbuf]
        exact ⟨(create_preserves_hasObserver (attachedBridge b ws)).trans rfl, rfl⟩
    refine ⟨hobs.2, hobs.1, ?_⟩
    rw [set_surface, hobs.1]
    simp
  · intro hRes
    have hres : get_session ws = Except.error AttachError.sessionUnresolvable := by
      rw [get_session]; simp [hRes]
    rw [set_surface, hres]
    simp [hObs, hSess]

/-- Witness for C8 at a fresh bridge, exercising the double-attach path. -/
theorem set_surface_fatal_paths_witness :
    (freshBridge.hasObserver = false ∧ freshBridge.hasSession = false) ∧
    ((wsNoBuffer.sessionResolvable = true →
      (set_surface freshBridge wsNoBuffer).2.2 = none ∧
      (set_surface freshBridge wsNoBuffer).1.hasObserver = true ∧
      set_surface (set_surface freshBridge wsNoBuffer).1 wsNoBuffer =
        ((set_surface freshBridge wsNoBuffer).1, [], some AttachError.calledMultipleTimes)) ∧
    (wsNoBuffer.sessionResolvable = false →
      (set_surface freshBridge wsNoBuffer).2.2 = some AttachError.sessionUnresolvable)) :=
  ⟨⟨rfl, rfl⟩, set_surface_fatal_paths freshBridge wsNoBuffer wsNoBuffer rfl rfl⟩

/-- The `appId` field after one continuation: only continuation 0
(`WM_CLASS`) ever writes it. -/
theorem runReadContinuation_appId (x : X11WindowProperties) (i : Nat) (p : Properties) :
    (runReadContinuation x i p).appId = if i = 0 then x.wmClass.getD p.appId else p.appId := by
  match i with
  | 0 => cases hx : x.wmClass <;> simp [runReadContinuation, hx]
  | 1 => cases hx : x.wmName <;> simp [runReadContinuation, hx]
  | 2 => cases hx : x.netWmName <;> simp [runReadContinuation, hx]
  | 3 =>
    cases hx : x.wmProtocols with
    | none => simp [runReadContinuation, hx]
    | some l =>
      by_cases hm : Atom.wmDeleteWindow ∈ l <;> simp [runReadContinuation, hx, hm]
  | (m + 4) => simp [runReadContinuation]

/-- The `deleteWindow` field after one continuation: only continuation 3
(`WM_PROTOCOLS`) ever writes it, and it only ever raises it. -/
theorem runReadContinuation_deleteWindow (x : X11WindowProperties) (i : Nat) (p : Properties) :
    (runReadContinuation x i p).deleteWindow =
      (p.deleteWindow || (decide (i = 3) && protocolsFlag x)) := by
  match i with
  | 0 => cases hx : x.wmClass <;> simp [runReadContinuation, hx]
  | 1 => cases hx : x.wmName <;> simp [runReadContinuation, hx]
  | 2 => cases hx : x.netWmName <;> simp [runReadContinuation, hx]
  | 3 =>
    cases hx : x.wmProtocols with
    | none => simp [runReadContinuation, protocolsFlag, hx]
    | some l =>
      by_cases hm : Atom.wmDeleteWindow ∈ l <;>
        simp [runReadContinuation, protocolsFlag, hx, hm]
  | (m + 4) => simp [runReadContinuation]

/-- Closed form for `appId` after any completion order: its final value
only depends on whether continuation 0 completes at all. -/
theorem foldl_appId (x : X11WindowProperties) (o : List Nat) :
    ∀ p : Properties,
      (o.foldl (fun p i => runReadContinuation x i p) p).appId =
        if 0 ∈ o then x.wmClass.getD p.appId else p.appId := by
  induction o with
  | nil => intro p; simp
  | cons i rest ih =>
    intro p
    rw [List.foldl_cons, ih, runReadContinuation_appId]
    by_cases hi : i = 0 <;> by_cases h0 : (0 : Nat) ∈ rest <;>
      cases hx : x.wmClass <;>
        simp [hi, h0, hx, List.mem_cons] <;>
          simp [Ne.symm hi]

/-- Closed form for `deleteWindow` after any completion order: its final
value only depends on whether continuation 3 completes at all. -/
theorem foldl_deleteWindow (x : X11WindowProperties) (o : List Nat) :
    ∀ p : Properties,
      (o.foldl (fun p i => runReadContinuation x i p) p).deleteWindow =
        (p.deleteWindow || (decide (3 ∈ o) && protocolsFlag x)) := by
  induction o with
  | nil => intro p; simp
  | cons i rest ih =>
    intro p
    rw [List.foldl_cons, ih, runReadContinuation_deleteWindow]
    by_cases hi : i = 3 <;> by_cases h3 : (3 : Nat) ∈ rest <;>
      cases hpf : protocolsFlag x <;>
        simp [hi, h3, hpf, List.mem_cons] <;>
          simp [Ne.symm hi]

/-- Claim C9: the claim says every cached-property field is written by at
most one read continuation, making the result order-independent.
Counterexample: `title` is written by both the `WM_NAME` and
`_NET_WM_NAME` continuations, so two completion orders of the same four
reads (a permutation) yield different titles. -/
theorem read_properties_order_dependent_cex :
    List.Perm [0, 1, 2, 3] [0, 2, 1, 3] ∧
    (read_properties freshBridge sampleX11Properties [0, 1, 2, 3]).properties.title ≠
      (read_properties freshBridge sampleX11Properties [0, 2, 1, 3]).properties.title := by
  decide

/-- Claim C9 (amended): `appId` and `deleteWindow` are each written by at
most one continuation, so their final values are the same for any two
completion orders that are permutations of each other; `title` is written
by two continuations and is order-dependent. -/
theorem read_properties_order_independent_fields (x : X11WindowProperties) (b : Bridge)
    (o1 o2 : List Nat) (h : List.Perm o1 o2) :
    (read_properties b x o1).properties.appId =
      (read_properties b x o2).properties.appId ∧
    (read_properties b x o1).properties.deleteWindow =
      (read_properties b x o2).properties.deleteWindow := by
  by_cases hd : b.propsDirty = true
  · have e1 : read_properties b x o1 =
        { b with
          propsDirty := false,
          properties := o1.foldl (fun p i => runReadContinuation x i p)
            { b.properties with deleteWindow := false } } := by
      rw [read_properties]; simp [hd]
    have e2 : read_properties b x o2 =
        { b with
          propsDirty := false,
          properties := o2.foldl (fun p i => runReadContinuation x i p)
            { b.properties with deleteWindow := false } } := by
      rw [read_properties]; simp [hd]
    rw [e1, e2]
    constructor
    · simp only [foldl_appId]
      simp [h.mem_iff]
    · simp only [foldl_deleteWindow]
      simp [h.mem_iff]
  · simp only [Bool.not_eq_true] at hd
    rw [read_properties, read_properties]
    simp [hd]

/-- Witness for the amended C9 theorem: the reversed completion order
leaves `appId` and `deleteWindow` unchanged. -/
theorem read_properties_order_independent_fields_witness :
    List.Perm [0, 1, 2, 3] [3, 2, 1, 0] ∧
    ((read_properties freshBridge sampleX11Properties [0, 1, 2, 3]).properties.appId =
        (read_properties freshBridge sampleX11Properties [3, 2, 1, 0]).properties.appId ∧
      (read_properties freshBridge sampleX11Properties [0, 1, 2, 3]).properties.deleteWindow =
        (read_properties freshBridge sampleX11Properties [3, 2, 1, 0]).properties.deleteWindow) :=
  ⟨by decide,
    read_properties_order_independent_fields sampleX11Properties freshBridge _ _ (by decide)⟩

end XWayland

namespace XWayland

/-- The cached compositor attribute after `set_window_state` is always the
computed one (when they already agree the cache is simply unchanged). -/
theorem set_window_state_fst_cached (b : Bridge) (s : WindowState) :
    (set_window_state b s).1.cachedMirWindowState = computedMirWindowState s := by
  rw [set_window_state]
  split
  · next h => simpa using h.symm
  · simp

/-- The first two effects of `set_window_state` are always the two X11
property writes, in program order. -/
theorem set_window_state_wire_take (b : Bridge) (s : WindowState) :
    ((set_window_state b s).2).take 2 =
      [Effect.setWmStateProp (wmStateOf s), Effect.netWmState (netWmStateWire s)] := by
  rw [set_window_state]
  split <;> simp

/-- Claim C1: the compositor attribute computed by `set_window_state` is
claimed to be `hidden` for every withdrawn state.  Counterexample: the
state that is withdrawn and nothing else maps to `restored`, because the
`hidden` assignment in the source is unconditionally overwritten by the
following if/else chain. -/
theorem withdrawn_not_hidden_cex :
    computedMirWindowState
      { withdrawn := true, minimized := false, maximized := false, fullscreen := false }
      ≠ MirWindowState.hidden ∧
    computedMirWindowState
      { withdrawn := true, minimized := false, maximized := false, fullscreen := false }
      = MirWindowState.restored := by
  decide

/-- Claim C1 (amended): the attribute computed and cached by
`set_window_state` ignores `withdrawn` entirely; it is `minimized` if
minimized, else `fullscreen` if fullscreen, else `maximized` if
maximized, else `restored`, and it is never `hidden`. -/
theorem mir_attribute_ignores_withdrawn (b : Bridge) (s : WindowState) :
    (set_window_state b s).1.cachedMirWindowState =
      (if s.minimized then MirWindowState.minimized
       else if s.fullscreen then MirWindowState.fullscreen
       else if s.maximized then MirWindowState.maximized
       else MirWindowState.restored) ∧
    computedMirWindowState s = computedMirWindowState { s with withdrawn := false } ∧
    (set_window_state b s).1.cachedMirWindowState ≠ MirWindowState.hidden := by
  refine ⟨?_, ?_, ?_⟩
  · rw [set_window_state_fst_cached]
    rfl
  · rfl
  · rw [set_window_state_fst_cached]
    rcases s with ⟨w, mi, ma, f⟩
    cases w <;> cases mi <;> cases ma <;> cases f <;> decide

/-- Claim C5: for every withdrawn state, `set_window_state` writes
`wm_state = Withdrawn` and deletes `_NET_WM_STATE`, advertising an empty
atom list, regardless of the minimized, maximized and fullscreen flags. -/
theorem wire_state_withdrawn (b : Bridge) (mi ma f : Bool) :
    ((set_window_state b { withdrawn := true, minimized := mi, maximized := ma, fullscreen := f }).2).take 2 =
      [Effect.setWmStateProp WmState.withdrawn, Effect.netWmState NetWmStateWire.deleteProp] ∧
    (netWmStateWire { withdrawn := true, minimized := mi, maximized := ma, fullscreen := f }).atoms = [] := by
  constructor
  · rw [set_window_state_wire_take]
    simp [wmStateOf, netWmStateWire]
  · simp [netWmStateWire, NetWmStateWire.atoms]

/-- Claim C6: for the state with minimized, maximized and fullscreen all
set (and not withdrawn), `set_window_state` writes `wm_state = Iconic` and
the `_NET_WM_STATE` atom list exactly
`[hidden, maximized_horz, maximized_vert, fullscreen]`, in that order. -/
theorem wire_state_atom_order (b : Bridge) :
    ((set_window_state b { withdrawn := false, minimized := true, maximized := true, fullscreen := true }).2).take 2 =
      [Effect.setWmStateProp WmState.iconic,
       Effect.netWmState (NetWmStateWire.setAtoms
         [Atom.netWmStateHidden, Atom.netWmStateMaximizedHorz,
          Atom.netWmStateMaximizedVert, Atom.netWmStateFullscreen])] ∧
    netWmStateAtomList { withdrawn := false, minimized := true, maximized := true, fullscreen := true } =
      [Atom.netWmStateHidden, Atom.netWmStateMaximizedHorz,
       Atom.netWmStateMaximizedVert, Atom.netWmStateFullscreen] := by
  constructor
  · rw [set_window_state_wire_take]
    simp [wmStateOf, netWmStateWire, netWmStateAtomList]
  · decide

end XWayland
